import Mathlib

/-
Verification of the vendored Qt excerpts under
src/Libraries/PyKotor/src/utility/gui/qt/relevant_qt_src/:

  gui/itemmodels/qfilesystemmodel.cpp      (partially elided QFileSystemModel)
  gui/itemmodels/tst_qfilesystemmodel.cpp  (test TU)
  gui/itemmodels/tst_qfileinfogatherer.cpp (test TU)
  corelib/io/tst_qfilesystemwatcher.cpp    (test TU)
  widgets/dialogs/tst_qfiledialog.cpp      (test TU)

Part 1 shallow-embeds the member functions that are actually defined in the
vendored qfilesystemmodel.cpp (setRootPath, rootPath, rootDirectory) as pure
state-passing functions.  Part 2 transcribes the four test translation units
as step lists (constructor and member calls on toolkit classes, signal-spy
declarations, waits, assertion macros) so that structural properties of the
test suite become decidable.
-/

namespace QtVendored

/-- Replaces the native (backslash) directory separator by a slash. -/
def sepChar (ch : Char) : Char :=
  if ch = '\\' then '/' else ch

/-- QDir::fromNativeSeparators: on Windows the native separator is the
backslash, which is replaced by a slash; defined over the underlying
character list so that it evaluates by kernel reduction.  The vendored
setRootPath applies it on the Q_OS_WIN (non-Win32) branch; on the other
branches the transform applied to newPath is the identity (non-Windows) or
qt_GetLongPathName (Win32, not vendored). -/
def fromNativeSeparators (s : String) : String :=
  String.mk (s.data.map sepChar)

/-- Splits a character list into the path components delimited by slashes;
consecutive slashes and a trailing slash contribute empty components, which
the cleaning pass then removes. -/
def splitSegsAux : List Char → List Char → List String
  | cur, [] => [String.mk cur.reverse]
  | cur, ch :: rest =>
      if ch = '/' then String.mk cur.reverse :: splitSegsAux [] rest
      else splitSegsAux (ch :: cur) rest

/-- See splitSegsAux. -/
def splitSegs (cs : List Char) : List String :=
  splitSegsAux [] cs

/-- Joins path components with slashes. -/
def joinSegs : List String → String
  | [] => ""
  | [s] => s
  | s :: rest => s ++ "/" ++ joinSegs rest

/-- One left-to-right pass resolving the path components, acc holding the
already-resolved components in reverse: empty components (from doubled or
trailing separators) and "." are dropped; ".." pops the preceding component
when there is one that is not itself "..", is dropped at the root of an
absolute path, and is kept (as a leading run) in a relative path. -/
def resolveSegs (absolute : Bool) : List String → List String → List String
  | acc, [] => acc.reverse
  | acc, seg :: rest =>
      if seg = "" || seg = "." then resolveSegs absolute acc rest
      else if seg = ".." then
        match acc with
        | top :: acc2 =>
            if top = ".." then resolveSegs absolute (seg :: acc) rest
            else resolveSegs absolute acc2 rest
        | [] =>
            if absolute then resolveSegs absolute [] rest
            else resolveSegs absolute [seg] rest
      else resolveSegs absolute (seg :: acc) rest

/-- The path starts with a slash. -/
def isAbsolutePath (s : String) : Bool :=
  match s.data with
  | [] => false
  | ch :: _ => ch = '/'

/-- Modelled from the spec: the external toolkit class QDir is not vendored
under src/, so its documented path canonicalization is modelled here.  Per
the toolkit documentation, QDir::setPath cleans the path of redundant "."
and ".." components and of multiple separators, and QDir::path() never
contains redundant ".", ".." or multiple separators (a trailing slash is
likewise removed, except for the root "/"); the empty path is returned
unchanged.  Implemented by splitting on slashes, resolving the components
and rejoining. -/
def cleanPathQ (s : String) : String :=
  if s = "" then "" else
  let abs := isAbsolutePath s
  let resolved := resolveSegs abs [] (splitSegs s.data)
  if abs then String.mk ('/' :: (joinSegs resolved).data)
  else if resolved = [] then "." else joinSegs resolved

/-- Minimal model of the external toolkit type QDir, reduced to the three
components the vendored code reads or writes: the directory path, the name
filters and the entry-filter flags (a bitmask, modelled as Nat). -/
structure QDir where
  path : String
  nameFilters : List String
  filters : Nat
deriving Repr, DecidableEq

/-- QDir(path) constructor: per the toolkit documentation an empty path is
replaced by the working directory "."; the stored path is then the argument
with native separators converted and cleaned (see cleanPathQ), so that the
documented invariant of QDir::path() holds. -/
def QDir.ofPath (s : String) : QDir :=
  { path := cleanPathQ (fromNativeSeparators (if s = "" then "." else s)),
    nameFilters := [], filters := 0 }

/-- QDir::setPath: converts native separators and cleans the given path (per
the documented behavior of setPath; the constructor-only substitution of "."
for the empty path does not apply here). -/
def QDir.setPath (d : QDir) (s : String) : QDir :=
  { d with path := cleanPathQ (fromNativeSeparators s) }

/-- QDir::setNameFilters. -/
def QDir.setNameFilters (d : QDir) (l : List String) : QDir :=
  { d with nameFilters := l }

/-- QDir::setFilter. -/
def QDir.setFilter (d : QDir) (f : Nat) : QDir :=
  { d with filters := f }

/-- The components of QFileSystemModelPrivate that the vendored file reads or
writes: rootDir and forceSort appear in setRootPath/rootPath/rootDirectory;
nameFilters and filters back the nameFilters()/filter() accessors used by
rootDirectory (their bodies are elided from the vendored file, see below).
The elided node tree, watcher and gatherer state are not represented because
no vendored statement touches them. -/
structure QFileSystemModelPrivate where
  rootDir : QDir
  forceSort : Bool
  nameFilters : List String
  filters : Nat
deriving Repr, DecidableEq

/-- Model of QModelIndex as produced by the vendored file: either the
default-constructed (invalid) index, or the result of the elided private
lookup QFileSystemModelPrivate::index(path), recorded symbolically together
with the private state it was queried in. -/
inductive QModelIndex where
  | invalid
  | privIndex (st : QFileSystemModelPrivate) (path : String)
deriving Repr, DecidableEq

/-- The signals QFileSystemModel can emit that the vendored material
mentions.  The vendored implementation file only ever emits
rootPathChanged; directoryLoaded and fileChanged are spied on by the tests. -/
inductive ModelSignal where
  | rootPathChanged (path : String)
  | directoryLoaded (path : String)
  | fileChanged (path oldName newName : String)
deriving Repr, DecidableEq

/-- Calls made by the vendored file into methods whose bodies are elided from
it (recorded so the embedding does not silently drop them). -/
inductive ElidedCall where
  | fetchMore (idx : QModelIndex)
  | delayedSort
deriving Repr, DecidableEq

/-- Result of invoking a member function: the private state afterwards, the
model signals emitted, the elided methods invoked, and the return value. -/
structure MStep (α : Type) where
  state : QFileSystemModelPrivate
  signals : List ModelSignal
  elided : List ElidedCall
  ret : α
deriving Repr, DecidableEq

/-- QFileSystemModel::rootPath: returns d->rootDir.path(). -/
def rootPath (st : QFileSystemModelPrivate) : String :=
  st.rootDir.path

/-- QFileSystemModel::setRootPath, embedded statement by statement from the
vendored file.  longNewPath is the separator-normalized path (the vendored
"Clean path logic" is a comment only, so no path cleaning happens).  The
guard showDrives is an elided condition: the identifier is referenced by the
vendored file but its computation is not present in it, so it is taken as an
explicit input.  The calls to the elided fetchMore and d->delayedSort are
recorded; the emission of rootPathChanged(longNewPath) and the assignment
d->forceSort = true are modelled directly. -/
def setRootPath (st : QFileSystemModelPrivate) (newPath : String)
    (showDrives : Bool) : MStep QModelIndex :=
  let longNewPath := fromNativeSeparators newPath
  if st.rootDir.path = longNewPath then
    { state := st, signals := [], elided := [],
      ret := QModelIndex.privIndex st (rootPath st) }
  else
    let st1 : QFileSystemModelPrivate := { st with rootDir := QDir.ofPath longNewPath }
    let st2 : QFileSystemModelPrivate :=
      if showDrives then { st1 with rootDir := st1.rootDir.setPath "" } else st1
    let newRootIndex : QModelIndex :=
      if showDrives then QModelIndex.invalid
      else QModelIndex.privIndex st2 st2.rootDir.path
    let st3 : QFileSystemModelPrivate := { st2 with forceSort := true }
    { state := st3,
      signals := [ModelSignal.rootPathChanged longNewPath],
      elided := [ElidedCall.fetchMore newRootIndex, ElidedCall.delayedSort],
      ret := newRootIndex }

/-- Modelled from the spec: the bodies of QFileSystemModel::nameFilters() and
QFileSystemModel::setNameFilters() are elided from the vendored file (only
"Core model implementation methods would be here..." stands in their place);
per the vendored test tst_QFileSystemModel::nameFilters, nameFilters()
returns exactly the list previously stored by setNameFilters(), so the
accessor is modelled as a read of the stored private field. -/
def nameFilters (st : QFileSystemModelPrivate) : List String :=
  st.nameFilters

/-- Modelled from the spec: the bodies of QFileSystemModel::filter() and
QFileSystemModel::setFilter() are elided from the vendored file; per the
vendored test tst_QFileSystemModel::filters, filter() returns exactly the
flags previously stored by setFilter(), so the accessor is modelled as a read
of the stored private field. -/
def filter (st : QFileSystemModelPrivate) : Nat :=
  st.filters

/-- QFileSystemModel::rootDirectory, statement by statement from the vendored
file: copy d->rootDir, overwrite its name filters with nameFilters() and its
entry filter with filter(), return the copy. -/
def rootDirectory (st : QFileSystemModelPrivate) : QDir :=
  let dir := st.rootDir
  let dir := dir.setNameFilters (nameFilters st)
  let dir := dir.setFilter (filter st)
  dir

/-- rootPath() as a call: the method is declared const and its body only
reads d->rootDir, so it leaves the state unchanged and emits nothing. -/
def rootPathCall (st : QFileSystemModelPrivate) : MStep String :=
  { state := st, signals := [], elided := [], ret := rootPath st }

/-- rootDirectory() as a call: the method is declared const and its body only
builds a local QDir copy, so it leaves the state unchanged and emits
nothing. -/
def rootDirectoryCall (st : QFileSystemModelPrivate) : MStep QDir :=
  { state := st, signals := [], elided := [], ret := rootDirectory st }

/-- Modelled from the spec: QFileSystemModelPrivate::init() and the private
member initializers are elided from the vendored file; per the vendored test
tst_QFileSystemModel::rootPath, a freshly constructed model reports an empty
rootPath(), so the initial root directory path is empty; forceSort starts
false (it is set by setRootPath), and no name filters or filter flags are
set. -/
def initState : QFileSystemModelPrivate :=
  { rootDir := { path := "", nameFilters := [], filters := 0 },
    forceSort := false, nameFilters := [], filters := 0 }

/-- The path is already in cleaned form: converting native separators and
cleaning it (the toolkit's documented canonicalization) leaves it
unchanged. -/
def isCleanedForm (p : String) : Bool :=
  cleanPathQ (fromNativeSeparators p) == p

/-- True exactly for the rootPathChanged signal. -/
def sigIsRootPathChanged : ModelSignal → Bool
  | ModelSignal.rootPathChanged _ => true
  | _ => false

/-
Part 2: transcription of the four test translation units.

Each test function is transcribed, in source order, as a list of steps:

  call cls mem     a constructor or member-function call on a toolkit object
                   class (the transcription records every call on Q-object
                   classes such as QFileSystemModel, QFileSystemWatcher,
                   QFileDialog, QDir, QFile, QFileInfo, QTemporaryDir,
                   QTemporaryFile, QFileIconProvider, QModelIndex, QIcon,
                   QUrl; manipulations of plain value types such as QString,
                   QStringList, QVariant and QList are not recorded);
  declSpy s        declaration of a QSignalSpy watching signal s;
  spyWait s        a QSignalSpy::wait(timeout) call on the spy of s;
  qWait            a QTest::qWait(ms) call;
  assertStep k o   a Qt Test assertion macro of kind k; o = some s when the
                   asserted expression is about the spy of signal s (its wait
                   result, its count, or a captured argument), o = none
                   otherwise.

A QVERIFY(spy.wait(t)) statement is two steps, spyWait then the assertion;
a QTRY_VERIFY(spy.count() > 0) statement is a single assertStep of kind
qtryVerify (the macro itself is a polling loop).  Statements sitting under a
platform conditional (Q_OS_WIN / Q_OS_UNIX / QT_CONFIG) are transcribed like
unconditional ones.  The constructors returnValueFailure and raiseFailure
stand for signalling test failure through a return value or an exception;
no statement of the suite does either, so they never occur.
-/

/-- Signal names appearing in the test suite. -/
inductive Sig where
  | directoryLoaded
  | fileChanged
  | rootPathChanged
  | directoryChanged
deriving Repr, DecidableEq

/-- Qt Test assertion-macro kinds (the kinds beyond the first three exist in
Qt Test but are checked to be absent from this suite). -/
inductive AKind where
  | qverify
  | qcompare
  | qtryVerify
  | qverify2
  | qtryCompare
  | qskip
  | qfail
  | qexpectFail
deriving Repr, DecidableEq

/-- One transcribed statement of a test function. -/
inductive TStep where
  | call (cls mem : String)
  | declSpy (s : Sig)
  | spyWait (s : Sig)
  | qWait
  | assertStep (k : AKind) (onSig : Option Sig)
  | returnValueFailure
  | raiseFailure
deriving Repr, DecidableEq

/-- A test function: its name and its transcribed steps. -/
structure TestFn where
  name : String
  steps : List TStep
deriving Repr, DecidableEq

/-- A class declared by a translation unit: its name, its base class, and the
base-class members it redefines or overrides. -/
structure DeclaredClass where
  name : String
  base : String
  overriddenMembers : List String
deriving Repr, DecidableEq

/-- A test translation unit: file name, the classes it declares, the error
types (enums or classes) it declares, whether it reaches into toolkit
internals (private headers, d-pointers), and its test functions. -/
structure TU where
  file : String
  classes : List DeclaredClass
  errorTypes : List String
  internalsAccess : Bool
  tests : List TestFn
deriving Repr, DecidableEq

/-- Shorthand for TStep.call. -/
def c (cls mem : String) : TStep := TStep.call cls mem

/-- A plain QVERIFY assertion not about a spied signal. -/
def av : TStep := TStep.assertStep AKind.qverify none

/-- A plain QCOMPARE assertion not about a spied signal. -/
def ac : TStep := TStep.assertStep AKind.qcompare none

/-- A QVERIFY assertion about the spy of signal s. -/
def avs (s : Sig) : TStep := TStep.assertStep AKind.qverify (some s)

/-- A QCOMPARE assertion about the spy of signal s. -/
def acs (s : Sig) : TStep := TStep.assertStep AKind.qcompare (some s)

/-- A QTRY_VERIFY assertion about the spy of signal s. -/
def atv (s : Sig) : TStep := TStep.assertStep AKind.qtryVerify (some s)

/-- Shorthand for TStep.declSpy. -/
def dcl (s : Sig) : TStep := TStep.declSpy s

/-- Shorthand for TStep.spyWait. -/
def sw (s : Sig) : TStep := TStep.spyWait s

/-- Shorthand for TStep.qWait. -/
def qw : TStep := TStep.qWait

/-- The recurring pattern QSignalSpy loadedSpy(&model,
SIGNAL(directoryLoaded(QString))); QVERIFY(loadedSpy.wait(5000)); -/
def waitLoaded : List TStep :=
  [dcl Sig.directoryLoaded, sw Sig.directoryLoaded, avs Sig.directoryLoaded]

/-- The recurring pattern QFile f(path); QVERIFY(f.open(...)); f.write(...);
f.close(); -/
def mkFile : List TStep :=
  [c "QFile" "constructor", c "QFile" "open", av, c "QFile" "write",
   c "QFile" "close"]

/-- tst_QFileSystemModel::initTestCase. -/
def fsmodel_initTestCase : TestFn :=
  { name := "initTestCase",
    steps := [c "QTemporaryDir" "isValid", av, c "QTemporaryDir" "path",
      c "QDir" "constructor", c "QDir" "mkdir", av, c "QDir" "mkdir", av]
      ++ mkFile ++ mkFile ++ [c "QFile" "setPermissions"] }

/-- tst_QFileSystemModel::cleanupTestCase. -/
def fsmodel_cleanupTestCase : TestFn :=
  { name := "cleanupTestCase", steps := [] }

/-- tst_QFileSystemModel::rootPath. -/
def fsmodel_rootPath : TestFn :=
  { name := "rootPath",
    steps := [c "QFileSystemModel" "constructor",
      c "QFileSystemModel" "rootPath", ac,
      c "QDir" "homePath",
      c "QFileSystemModel" "setRootPath",
      c "QFileSystemModel" "rootPath", ac] }

/-- tst_QFileSystemModel::index. -/
def fsmodel_index : TestFn :=
  { name := "index",
    steps := [c "QFileSystemModel" "constructor",
      c "QFileSystemModel" "setRootPath",
      c "QFileSystemModel" "index", c "QModelIndex" "isValid", av,
      c "QFileSystemModel" "index", c "QModelIndex" "isValid", av,
      c "QFileSystemModel" "filePath", ac]
      ++ waitLoaded ++
      [c "QFileSystemModel" "index", c "QFileSystemModel" "rowCount",
       c "QModelIndex" "isValid", av,
       c "QFileSystemModel" "fileName", av] }

/-- tst_QFileSystemModel::data. -/
def fsmodel_data : TestFn :=
  { name := "data",
    steps := [c "QFileSystemModel" "constructor",
      c "QFileSystemModel" "setRootPath"]
      ++ waitLoaded ++
      [c "QFileSystemModel" "index", c "QModelIndex" "isValid", av,
       c "QFileSystemModel" "data", av,
       c "QFileSystemModel" "data", av,
       c "QFileSystemModel" "data", ac] }

/-- tst_QFileSystemModel::setRootPath: declares a spy on rootPathChanged,
calls setRootPath once, then asserts on the spy count and the captured
argument with no wait step anywhere in the function (rootPathChanged is
emitted synchronously by setRootPath). -/
def fsmodel_setRootPath : TestFn :=
  { name := "setRootPath",
    steps := [c "QFileSystemModel" "constructor",
      dcl Sig.rootPathChanged,
      c "QFileSystemModel" "setRootPath",
      c "QFileSystemModel" "rootPath", ac,
      acs Sig.rootPathChanged,
      acs Sig.rootPathChanged,
      c "QModelIndex" "isValid", av] }

/-- tst_QFileSystemModel::rowCount. -/
def fsmodel_rowCount : TestFn :=
  { name := "rowCount",
    steps := [c "QFileSystemModel" "constructor",
      c "QFileSystemModel" "setRootPath",
      c "QFileSystemModel" "index"]
      ++ waitLoaded ++
      [c "QFileSystemModel" "rowCount", av] }

/-- tst_QFileSystemModel::remove. -/
def fsmodel_remove : TestFn :=
  { name := "remove",
    steps := [c "QTemporaryFile" "constructor", c "QTemporaryFile" "open", av,
      c "QTemporaryFile" "write", c "QTemporaryFile" "close",
      c "QTemporaryFile" "fileName",
      c "QFileSystemModel" "constructor",
      c "QFileSystemModel" "setRootPath"]
      ++ waitLoaded ++
      [c "QFileSystemModel" "index", c "QModelIndex" "isValid", av,
       c "QFileSystemModel" "remove", av,
       c "QFile" "exists", av] }

/-- tst_QFileSystemModel::mkdir. -/
def fsmodel_mkdir : TestFn :=
  { name := "mkdir",
    steps := [c "QFileSystemModel" "constructor",
      c "QFileSystemModel" "setRootPath"]
      ++ waitLoaded ++
      [c "QFileSystemModel" "index", c "QModelIndex" "isValid", av,
       c "QFileSystemModel" "mkdir", c "QModelIndex" "isValid", av,
       c "QFileSystemModel" "filePath", ac,
       c "QDir" "constructor", c "QDir" "exists", av] }

/-- tst_QFileSystemModel::filters. -/
def fsmodel_filters : TestFn :=
  { name := "filters",
    steps := [c "QFileSystemModel" "constructor",
      c "QFileSystemModel" "setFilter", c "QFileSystemModel" "filter", ac] }

/-- tst_QFileSystemModel::nameFilters. -/
def fsmodel_nameFilters : TestFn :=
  { name := "nameFilters",
    steps := [c "QFileSystemModel" "constructor",
      c "QFileSystemModel" "setNameFilters",
      c "QFileSystemModel" "nameFilters", ac] }

/-- tst_QFileSystemModel::permissions. -/
def fsmodel_permissions : TestFn :=
  { name := "permissions",
    steps := [c "QFileSystemModel" "constructor",
      c "QFileSystemModel" "setRootPath"]
      ++ waitLoaded ++
      [c "QFileSystemModel" "index", c "QModelIndex" "isValid", av,
       c "QFileSystemModel" "permissions", av] }

/-- tst_QFileSystemModel::fileInfo. -/
def fsmodel_fileInfo : TestFn :=
  { name := "fileInfo",
    steps := [c "QFileSystemModel" "constructor",
      c "QFileSystemModel" "setRootPath"]
      ++ waitLoaded ++
      [c "QFileSystemModel" "index", c "QModelIndex" "isValid", av,
       c "QFileSystemModel" "fileInfo",
       c "QFileInfo" "exists", av,
       c "QFileInfo" "absoluteFilePath", ac] }

/-- tst_QFileSystemModel::sort. -/
def fsmodel_sort : TestFn :=
  { name := "sort",
    steps := [c "QFileSystemModel" "constructor",
      c "QFileSystemModel" "setRootPath"]
      ++ waitLoaded ++
      [c "QFileSystemModel" "sort", c "QFileSystemModel" "sortRole", ac,
       c "QFileSystemModel" "sort", c "QFileSystemModel" "sortRole", ac] }

/-- tst_QFileSystemModel::icons. -/
def fsmodel_icons : TestFn :=
  { name := "icons",
    steps := [c "QFileSystemModel" "constructor",
      c "QFileIconProvider" "constructor",
      c "QFileSystemModel" "setIconProvider",
      c "QFileSystemModel" "iconProvider", ac,
      c "QFileSystemModel" "setRootPath"]
      ++ waitLoaded ++
      [c "QFileSystemModel" "index", c "QModelIndex" "isValid", av,
       c "QFileSystemModel" "data", c "QIcon" "isNull", av] }

/-- tst_QFileSystemModel::hidden. -/
def fsmodel_hidden : TestFn :=
  { name := "hidden",
    steps := [c "QFileSystemModel" "constructor",
      c "QFileSystemModel" "setFilter", c "QFileSystemModel" "filter", av,
      c "QFileSystemModel" "setFilter", c "QFileSystemModel" "filter", av] }

/-- tst_QFileSystemModel::myComputer. -/
def fsmodel_myComputer : TestFn :=
  { name := "myComputer",
    steps := [c "QFileSystemModel" "constructor",
      c "QFileSystemModel" "index", c "QModelIndex" "isValid", av,
      c "QFileSystemModel" "data", av] }

/-- tst_QFileSystemModel::shortcut (body under Q_OS_WIN). -/
def fsmodel_shortcut : TestFn :=
  { name := "shortcut",
    steps := [c "QFileSystemModel" "constructor",
      c "QFileSystemModel" "setResolveSymlinks",
      c "QFileSystemModel" "resolveSymlinks", av,
      c "QFileSystemModel" "setResolveSymlinks",
      c "QFileSystemModel" "resolveSymlinks", av] }

/-- tst_QFileSystemModel::caseSensitivity (one QVERIFY per platform branch,
identical in shape). -/
def fsmodel_caseSensitivity : TestFn :=
  { name := "caseSensitivity",
    steps := [c "QFileSystemModel" "constructor",
      c "QFileSystemModel" "caseSensitivity", av] }

/-- tst_QFileSystemModel::drives. -/
def fsmodel_drives : TestFn :=
  { name := "drives",
    steps := [c "QFileSystemModel" "constructor",
      c "QFileSystemModel" "setRootPath"]
      ++ waitLoaded ++
      [c "QFileSystemModel" "rowCount", av] }

/-- The translation unit tst_qfilesystemmodel.cpp: declares the single
fixture class tst_QFileSystemModel deriving QObject, no error types, no
access to toolkit internals. -/
def tstQFileSystemModelTU : TU :=
  { file := "tst_qfilesystemmodel.cpp",
    classes := [{ name := "tst_QFileSystemModel", base := "QObject",
                  overriddenMembers := [] }],
    errorTypes := [],
    internalsAccess := false,
    tests := [fsmodel_initTestCase, fsmodel_cleanupTestCase, fsmodel_rootPath,
      fsmodel_index, fsmodel_data, fsmodel_setRootPath, fsmodel_rowCount,
      fsmodel_remove, fsmodel_mkdir, fsmodel_filters, fsmodel_nameFilters,
      fsmodel_permissions, fsmodel_fileInfo, fsmodel_sort, fsmodel_icons,
      fsmodel_hidden, fsmodel_myComputer, fsmodel_shortcut,
      fsmodel_caseSensitivity, fsmodel_drives] }

/-- tst_QFileInfoGatherer::initTestCase. -/
def gatherer_initTestCase : TestFn :=
  { name := "initTestCase",
    steps := [c "QTemporaryDir" "isValid", av, c "QTemporaryDir" "path",
      c "QDir" "constructor", c "QDir" "mkdir", av]
      ++ mkFile ++ mkFile ++ [c "QFile" "link"] }

/-- tst_QFileInfoGatherer::cleanupTestCase. -/
def gatherer_cleanupTestCase : TestFn :=
  { name := "cleanupTestCase", steps := [] }

/-- tst_QFileInfoGatherer::basicFileInfo. -/
def gatherer_basicFileInfo : TestFn :=
  { name := "basicFileInfo",
    steps := [c "QFileSystemModel" "constructor",
      c "QFileSystemModel" "setRootPath"]
      ++ waitLoaded ++
      [c "QFileSystemModel" "index", c "QModelIndex" "isValid", av,
       c "QFileSystemModel" "fileInfo",
       c "QFileInfo" "exists", av,
       c "QFileInfo" "fileName", ac,
       c "QFileInfo" "size", ac,
       c "QFileInfo" "isFile", av,
       c "QFileInfo" "isDir", av] }

/-- tst_QFileInfoGatherer::directoryInfo. -/
def gatherer_directoryInfo : TestFn :=
  { name := "directoryInfo",
    steps := [c "QFileSystemModel" "constructor",
      c "QFileSystemModel" "setRootPath"]
      ++ waitLoaded ++
      [c "QFileSystemModel" "index", c "QModelIndex" "isValid", av,
       c "QFileSystemModel" "fileInfo",
       c "QFileInfo" "exists", av,
       c "QFileInfo" "fileName", ac,
       c "QFileInfo" "isDir", av,
       c "QFileInfo" "isFile", av] }

/-- tst_QFileInfoGatherer::hiddenFiles. -/
def gatherer_hiddenFiles : TestFn :=
  { name := "hiddenFiles",
    steps := [c "QFileSystemModel" "constructor",
      c "QFileSystemModel" "setRootPath"]
      ++ mkFile ++
      [c "QFileInfo" "constructor", c "QFileInfo" "isHidden", av]
      ++ waitLoaded ++
      [c "QFileSystemModel" "setFilter",
       c "QFileSystemModel" "index", c "QModelIndex" "isValid",
       c "QFileSystemModel" "fileInfo", c "QFileInfo" "fileName", ac] }

/-- tst_QFileInfoGatherer::symlinks (body under Q_OS_UNIX). -/
def gatherer_symlinks : TestFn :=
  { name := "symlinks",
    steps := [c "QFileSystemModel" "constructor",
      c "QFileSystemModel" "setRootPath"]
      ++ waitLoaded ++
      [c "QFileSystemModel" "index", c "QModelIndex" "isValid", av,
       c "QFileSystemModel" "fileInfo",
       c "QFileInfo" "exists", av,
       c "QFileInfo" "fileName", ac,
       c "QFileInfo" "isSymLink", av,
       c "QFileSystemModel" "setResolveSymlinks",
       c "QFileSystemModel" "resolveSymlinks", av,
       c "QFileSystemModel" "setResolveSymlinks",
       c "QFileSystemModel" "resolveSymlinks", av] }

/-- tst_QFileInfoGatherer::permissions. -/
def gatherer_permissions : TestFn :=
  { name := "permissions",
    steps := [c "QFileSystemModel" "constructor",
      c "QFileSystemModel" "setRootPath"]
      ++ waitLoaded ++
      [c "QFileSystemModel" "index", c "QModelIndex" "isValid", av,
       c "QFileSystemModel" "permissions", av, av] }

/-- tst_QFileInfoGatherer::iconProvider. -/
def gatherer_iconProvider : TestFn :=
  { name := "iconProvider",
    steps := [c "QFileSystemModel" "constructor",
      c "QFileSystemModel" "iconProvider", av,
      c "QFileIconProvider" "constructor",
      c "QFileSystemModel" "setIconProvider",
      c "QFileSystemModel" "iconProvider", ac,
      c "QFileSystemModel" "setRootPath"]
      ++ waitLoaded ++
      [c "QFileSystemModel" "index", c "QModelIndex" "isValid", av,
       c "QFileSystemModel" "data", c "QIcon" "isNull", av] }

/-- tst_QFileInfoGatherer::fileWatching: declares spies on the model
fileChanged and directoryLoaded signals but never asserts on them; the only
waits are two QTest::qWait calls. -/
def gatherer_fileWatching : TestFn :=
  { name := "fileWatching",
    steps := [c "QFileSystemModel" "constructor",
      c "QFileSystemModel" "setRootPath"]
      ++ waitLoaded ++ mkFile ++
      [dcl Sig.fileChanged, dcl Sig.directoryLoaded,
       qw,
       c "QFile" "open", av, c "QFile" "write", c "QFile" "close",
       qw,
       c "QFile" "remove"] }

/-- The translation unit tst_qfileinfogatherer.cpp: despite its name it
declares only the fixture tst_QFileInfoGatherer deriving QObject and its
test functions drive QFileSystemModel, QFile, QFileInfo and the other
toolkit classes; no statement in the unit names QFileInfoGatherer. -/
def tstQFileInfoGathererTU : TU :=
  { file := "tst_qfileinfogatherer.cpp",
    classes := [{ name := "tst_QFileInfoGatherer", base := "QObject",
                  overriddenMembers := [] }],
    errorTypes := [],
    internalsAccess := false,
    tests := [gatherer_initTestCase, gatherer_cleanupTestCase,
      gatherer_basicFileInfo, gatherer_directoryInfo, gatherer_hiddenFiles,
      gatherer_symlinks, gatherer_permissions, gatherer_iconProvider,
      gatherer_fileWatching] }

/-- tst_QFileSystemWatcher::initTestCase. -/
def watcher_initTestCase : TestFn :=
  { name := "initTestCase",
    steps := [c "QTemporaryDir" "isValid", av, c "QTemporaryDir" "path"] }

/-- tst_QFileSystemWatcher::cleanupTestCase. -/
def watcher_cleanupTestCase : TestFn :=
  { name := "cleanupTestCase", steps := [] }

/-- tst_QFileSystemWatcher::addPath. -/
def watcher_addPath : TestFn :=
  { name := "addPath",
    steps := [c "QFileSystemWatcher" "constructor"]
      ++ mkFile ++
      [c "QFileSystemWatcher" "addPath", av,
       c "QFileSystemWatcher" "files", av] }

/-- tst_QFileSystemWatcher::addPaths. -/
def watcher_addPaths : TestFn :=
  { name := "addPaths",
    steps := [c "QFileSystemWatcher" "constructor"]
      ++ mkFile ++ mkFile ++
      [c "QFileSystemWatcher" "addPaths", av,
       c "QFileSystemWatcher" "files", av, av] }

/-- tst_QFileSystemWatcher::removePath. -/
def watcher_removePath : TestFn :=
  { name := "removePath",
    steps := [c "QFileSystemWatcher" "constructor"]
      ++ mkFile ++
      [c "QFileSystemWatcher" "addPath",
       c "QFileSystemWatcher" "files", av,
       c "QFileSystemWatcher" "removePath", av,
       c "QFileSystemWatcher" "files", av] }

/-- tst_QFileSystemWatcher::removePaths. -/
def watcher_removePaths : TestFn :=
  { name := "removePaths",
    steps := [c "QFileSystemWatcher" "constructor"]
      ++ mkFile ++ [c "QFileSystemWatcher" "addPath"]
      ++ mkFile ++ [c "QFileSystemWatcher" "addPath"]
      ++ [c "QFileSystemWatcher" "files", av,
          c "QFileSystemWatcher" "removePaths", av,
          c "QFileSystemWatcher" "files", av, av] }

/-- tst_QFileSystemWatcher::files. -/
def watcher_files : TestFn :=
  { name := "files",
    steps := [c "QFileSystemWatcher" "constructor"]
      ++ mkFile ++ [c "QFileSystemWatcher" "addPath"]
      ++ mkFile ++ [c "QFileSystemWatcher" "addPath"]
      ++ [c "QFileSystemWatcher" "files", ac, av, av] }

/-- tst_QFileSystemWatcher::directories. -/
def watcher_directories : TestFn :=
  { name := "directories",
    steps := [c "QFileSystemWatcher" "constructor",
      c "QDir" "constructor", c "QDir" "mkdir",
      c "QFileSystemWatcher" "addPath",
      c "QFileSystemWatcher" "directories", av] }

/-- tst_QFileSystemWatcher::fileChanged: the assertions on the fileChanged
spy are a QTRY_VERIFY polling wait followed by a QCOMPARE on the captured
argument. -/
def watcher_fileChanged : TestFn :=
  { name := "fileChanged",
    steps := [c "QFileSystemWatcher" "constructor"]
      ++ mkFile ++
      [c "QFileSystemWatcher" "addPath",
       dcl Sig.fileChanged,
       c "QFile" "open", av, c "QFile" "write", c "QFile" "close",
       atv Sig.fileChanged,
       acs Sig.fileChanged] }

/-- tst_QFileSystemWatcher::directoryChanged. -/
def watcher_directoryChanged : TestFn :=
  { name := "directoryChanged",
    steps := [c "QFileSystemWatcher" "constructor",
      c "QDir" "constructor", c "QDir" "mkdir",
      c "QFileSystemWatcher" "addPath",
      dcl Sig.directoryChanged]
      ++ mkFile ++
      [atv Sig.directoryChanged,
       acs Sig.directoryChanged] }

/-- tst_QFileSystemWatcher::multipleWatchers. -/
def watcher_multipleWatchers : TestFn :=
  { name := "multipleWatchers",
    steps := [c "QFileSystemWatcher" "constructor",
      c "QFileSystemWatcher" "constructor"]
      ++ mkFile ++
      [c "QFileSystemWatcher" "addPath",
       c "QFileSystemWatcher" "addPath",
       dcl Sig.fileChanged, dcl Sig.fileChanged,
       c "QFile" "open", av, c "QFile" "write", c "QFile" "close",
       atv Sig.fileChanged, atv Sig.fileChanged,
       acs Sig.fileChanged, acs Sig.fileChanged] }

/-- The translation unit tst_qfilesystemwatcher.cpp. -/
def tstQFileSystemWatcherTU : TU :=
  { file := "tst_qfilesystemwatcher.cpp",
    classes := [{ name := "tst_QFileSystemWatcher", base := "QObject",
                  overriddenMembers := [] }],
    errorTypes := [],
    internalsAccess := false,
    tests := [watcher_initTestCase, watcher_cleanupTestCase, watcher_addPath,
      watcher_addPaths, watcher_removePath, watcher_removePaths,
      watcher_files, watcher_directories, watcher_fileChanged,
      watcher_directoryChanged, watcher_multipleWatchers] }

/-- tst_QFileDialog::initTestCase. -/
def dialog_initTestCase : TestFn :=
  { name := "initTestCase",
    steps := [c "QTemporaryDir" "isValid", av, c "QTemporaryDir" "path"]
      ++ mkFile ++ mkFile ++
      [c "QDir" "constructor", c "QDir" "mkdir"] }

/-- tst_QFileDialog::cleanupTestCase. -/
def dialog_cleanupTestCase : TestFn :=
  { name := "cleanupTestCase", steps := [] }

/-- tst_QFileDialog::getOpenFileName. -/
def dialog_getOpenFileName : TestFn :=
  { name := "getOpenFileName",
    steps := [c "QFileDialog" "getOpenFileName", av] }

/-- tst_QFileDialog::getSaveFileName. -/
def dialog_getSaveFileName : TestFn :=
  { name := "getSaveFileName",
    steps := [c "QFileDialog" "getSaveFileName", av] }

/-- tst_QFileDialog::getExistingDirectory. -/
def dialog_getExistingDirectory : TestFn :=
  { name := "getExistingDirectory",
    steps := [c "QFileDialog" "getExistingDirectory", av] }

/-- tst_QFileDialog::setDirectory. -/
def dialog_setDirectory : TestFn :=
  { name := "setDirectory",
    steps := [c "QFileDialog" "constructor",
      c "QFileDialog" "setDirectory", c "QFileDialog" "directory",
      c "QDir" "absolutePath", ac,
      c "QDir" "constructor",
      c "QFileDialog" "setDirectory", c "QFileDialog" "directory",
      c "QDir" "absolutePath", ac] }

/-- tst_QFileDialog::selectFile. -/
def dialog_selectFile : TestFn :=
  { name := "selectFile",
    steps := [c "QFileDialog" "constructor", c "QFileDialog" "setDirectory",
      c "QFileDialog" "selectFile",
      c "QFileDialog" "selectedFiles", av] }

/-- tst_QFileDialog::selectedFiles. -/
def dialog_selectedFiles : TestFn :=
  { name := "selectedFiles",
    steps := [c "QFileDialog" "constructor", c "QFileDialog" "setDirectory",
      c "QFileDialog" "selectedFiles", av] }

/-- tst_QFileDialog::setNameFilter. -/
def dialog_setNameFilter : TestFn :=
  { name := "setNameFilter",
    steps := [c "QFileDialog" "constructor", c "QFileDialog" "setNameFilter",
      c "QFileDialog" "nameFilters", av] }

/-- tst_QFileDialog::setNameFilters. -/
def dialog_setNameFilters : TestFn :=
  { name := "setNameFilters",
    steps := [c "QFileDialog" "constructor", c "QFileDialog" "setNameFilters",
      c "QFileDialog" "nameFilters", ac] }

/-- tst_QFileDialog::setViewMode. -/
def dialog_setViewMode : TestFn :=
  { name := "setViewMode",
    steps := [c "QFileDialog" "constructor",
      c "QFileDialog" "setViewMode", c "QFileDialog" "viewMode", ac,
      c "QFileDialog" "setViewMode", c "QFileDialog" "viewMode", ac] }

/-- tst_QFileDialog::setFileMode. -/
def dialog_setFileMode : TestFn :=
  { name := "setFileMode",
    steps := [c "QFileDialog" "constructor",
      c "QFileDialog" "setFileMode", c "QFileDialog" "fileMode", ac,
      c "QFileDialog" "setFileMode", c "QFileDialog" "fileMode", ac,
      c "QFileDialog" "setFileMode", c "QFileDialog" "fileMode", ac,
      c "QFileDialog" "setFileMode", c "QFileDialog" "fileMode", ac] }

/-- tst_QFileDialog::setAcceptMode. -/
def dialog_setAcceptMode : TestFn :=
  { name := "setAcceptMode",
    steps := [c "QFileDialog" "constructor",
      c "QFileDialog" "setAcceptMode", c "QFileDialog" "acceptMode", ac,
      c "QFileDialog" "setAcceptMode", c "QFileDialog" "acceptMode", ac] }

/-- tst_QFileDialog::options. -/
def dialog_options : TestFn :=
  { name := "options",
    steps := [c "QFileDialog" "constructor",
      c "QFileDialog" "options", av,
      c "QFileDialog" "setOption", c "QFileDialog" "testOption", av,
      c "QFileDialog" "setOption", c "QFileDialog" "testOption", av,
      c "QFileDialog" "setOptions",
      c "QFileDialog" "testOption", av,
      c "QFileDialog" "testOption", av,
      c "QFileDialog" "testOption", av] }

/-- tst_QFileDialog::sidebarUrls. -/
def dialog_sidebarUrls : TestFn :=
  { name := "sidebarUrls",
    steps := [c "QFileDialog" "constructor",
      c "QUrl" "fromLocalFile", c "QDir" "homePath", c "QUrl" "fromLocalFile",
      c "QFileDialog" "setSidebarUrls",
      c "QFileDialog" "sidebarUrls", av] }

/-- tst_QFileDialog::history. -/
def dialog_history : TestFn :=
  { name := "history",
    steps := [c "QFileDialog" "constructor",
      c "QDir" "homePath", c "QDir" "tempPath",
      c "QFileDialog" "setHistory",
      c "QFileDialog" "history", av] }

/-- tst_QFileDialog::defaultSuffix. -/
def dialog_defaultSuffix : TestFn :=
  { name := "defaultSuffix",
    steps := [c "QFileDialog" "constructor",
      c "QFileDialog" "setDefaultSuffix", c "QFileDialog" "defaultSuffix", ac,
      c "QFileDialog" "setDefaultSuffix", c "QFileDialog" "defaultSuffix",
      ac] }

/-- tst_QFileDialog::mimeTypeFilters (body under QT_CONFIG(mimetype)). -/
def dialog_mimeTypeFilters : TestFn :=
  { name := "mimeTypeFilters",
    steps := [c "QFileDialog" "constructor",
      c "QFileDialog" "setMimeTypeFilters",
      c "QFileDialog" "mimeTypeFilters", ac] }

/-- The translation unit tst_qfiledialog.cpp. -/
def tstQFileDialogTU : TU :=
  { file := "tst_qfiledialog.cpp",
    classes := [{ name := "tst_QFileDialog", base := "QObject",
                  overriddenMembers := [] }],
    errorTypes := [],
    internalsAccess := false,
    tests := [dialog_initTestCase, dialog_cleanupTestCase,
      dialog_getOpenFileName, dialog_getSaveFileName,
      dialog_getExistingDirectory, dialog_setDirectory, dialog_selectFile,
      dialog_selectedFiles, dialog_setNameFilter, dialog_setNameFilters,
      dialog_setViewMode, dialog_setFileMode, dialog_setAcceptMode,
      dialog_options, dialog_sidebarUrls, dialog_history,
      dialog_defaultSuffix, dialog_mimeTypeFilters] }

/-- All four test translation units. -/
def allTestTUs : List TU :=
  [tstQFileSystemModelTU, tstQFileInfoGathererTU, tstQFileSystemWatcherTU,
   tstQFileDialogTU]

/-- The toolkit calls made by the vendored qfilesystemmodel.cpp itself (in
setRootPath, rootPath and rootDirectory), as class-member pairs. -/
def modelExcerptCalls : List (String × String) :=
  [("QDir", "fromNativeSeparators"), ("QDir", "path"),
   ("QDir", "constructor"), ("QDir", "setPath"),
   ("QDir", "setNameFilters"), ("QDir", "setFilter")]

/-- Polling or timeout-bounded wait steps: a QSignalSpy::wait call, a
QTest::qWait call, or a QTRY_VERIFY assertion (itself a polling loop). -/
def isWaitStep : TStep → Bool
  | TStep.spyWait _ => true
  | TStep.qWait => true
  | TStep.assertStep AKind.qtryVerify _ => true
  | _ => false

/-- The spied signal an assertion step is about, if any. -/
def assertedSig : TStep → Option Sig
  | TStep.assertStep _ o => o
  | _ => none

/-- The three asynchronous notifications named by the spec: directoryLoaded,
fileChanged and rootPathChanged. -/
def isAsyncSig : Sig → Bool
  | Sig.directoryLoaded => true
  | Sig.fileChanged => true
  | Sig.rootPathChanged => true
  | Sig.directoryChanged => false

/-- The two notifications that are delivered through the event loop only. -/
def isLoadedOrFileChanged : Sig → Bool
  | Sig.directoryLoaded => true
  | Sig.fileChanged => true
  | _ => false

/-- Scans the steps in order, seenWait recording whether a wait step occurred
earlier in the function; holds when every assertion about a signal selected
by sel is preceded by a wait step or is itself one. -/
def awaitedFrom (sel : Sig → Bool) : Bool → List TStep → Bool
  | _, [] => true
  | seenWait, st :: rest =>
      (match assertedSig st with
       | some s => !(sel s) || seenWait || isWaitStep st
       | none => true)
      && awaitedFrom sel (seenWait || isWaitStep st) rest

/-- A test function awaits (via polling or a timeout-bounded wait) every
assertion it makes about the signals selected by sel. -/
def testAwaits (sel : Sig → Bool) (tf : TestFn) : Bool :=
  awaitedFrom sel false tf.steps

/-- Claim C2 as stated, over the whole suite. -/
def suiteAwaitsAsync : Bool :=
  allTestTUs.all (fun tu => tu.tests.all (testAwaits isAsyncSig))

/-- The assertion-macro kinds the suite is claimed to use exclusively. -/
def allowedAssertKind : AKind → Bool
  | AKind.qverify => true
  | AKind.qcompare => true
  | AKind.qtryVerify => true
  | _ => false

/-- A step validates behavior only through the allowed Qt Test macros and
signals failure neither through a return value nor through an exception. -/
def stepValidatesViaMacros : TStep → Bool
  | TStep.assertStep k _ => allowedAssertKind k
  | TStep.returnValueFailure => false
  | TStep.raiseFailure => false
  | _ => true

/-- Claim C6 over the whole suite: only the three macros, no failure through
return values or exceptions, and no error taxonomy declared by any unit. -/
def suiteValidatesViaMacros : Bool :=
  allTestTUs.all (fun tu =>
    tu.errorTypes.isEmpty &&
    tu.tests.all (fun tf => tf.steps.all stepValidatesViaMacros))

/-- The step is a constructor or member call on class cls. -/
def stepCallsClass (cls : String) : TStep → Bool
  | TStep.call cl _ => cl == cls
  | _ => false

/-- Some test function of the unit invokes an operation of class cls. -/
def tuCallsClass (tu : TU) (cls : String) : Bool :=
  tu.tests.any (fun tf => tf.steps.any (stepCallsClass cls))

/-- Thread and synchronization classes. -/
def isThreadPrimitive (cls : String) : Bool :=
  cls == "QThread" || cls == "QMutex" || cls == "QSemaphore" ||
  cls == "QWaitCondition" || cls == "QAtomicInt" || cls == "QtConcurrent" ||
  cls == "QRunnable" || cls == "QThreadPool" || cls == "std::thread" ||
  cls == "std::mutex" || cls == "std::condition_variable"

/-- Member functions that create threads or move objects across threads. -/
def isThreadMember (mem : String) : Bool :=
  mem == "moveToThread" || mem == "lock" || mem == "unlock" ||
  mem == "acquire" || mem == "release"

/-- The step neither creates a thread nor performs inter-thread
synchronization. -/
def stepThreadFree : TStep → Bool
  | TStep.call cl mem => !(isThreadPrimitive cl) && !(isThreadMember mem)
  | _ => true

/-- No test function of any unit creates a thread or synchronizes across
threads. -/
def suiteThreadFree : Bool :=
  allTestTUs.all (fun tu =>
    tu.tests.all (fun tf => tf.steps.all stepThreadFree))

/-- The vendored model excerpt makes no thread or synchronization call
either. -/
def modelExcerptThreadFree : Bool :=
  modelExcerptCalls.all (fun pc =>
    !(isThreadPrimitive pc.1) && !(isThreadMember pc.2))

/-- The six toolkit entity types named by claim C8. -/
def toolkitEntityTypes : List String :=
  ["QFileSystemWatcher", "QFileSystemModel", "QModelIndex", "QFileInfo",
   "QDir", "QFileDialog"]

/-- The unit uses the toolkit types as-is: every class it declares derives
QObject (in particular none of the six toolkit types is a base class),
redefines no toolkit member, and the unit does not reach into toolkit
internals. -/
def tuUsesTypesAsIs (tu : TU) : Bool :=
  tu.classes.all (fun dc =>
    dc.base == "QObject" &&
    !(toolkitEntityTypes.contains dc.base) &&
    dc.overriddenMembers.isEmpty) &&
  !tu.internalsAccess

/-- Concrete private state whose root directory path is "/r"; used to
instantiate theorems. -/
def sampleRootedState : QFileSystemModelPrivate :=
  { rootDir := { path := "/r", nameFilters := [], filters := 0 },
    forceSort := false, nameFilters := [], filters := 0 }

/-- Replacing native separators is idempotent on a single character: a slash
is not a native separator. -/
theorem sepChar_idem (a : Char) : sepChar (sepChar a) = sepChar a := by
  by_cases h : a = '\\'
  · subst h; decide
  · simp [sepChar, h]

/-- fromNativeSeparators is idempotent. -/
theorem fromNativeSeparators_idem (s : String) :
    fromNativeSeparators (fromNativeSeparators s) = fromNativeSeparators s := by
  show String.mk ((s.data.map sepChar).map sepChar) =
    String.mk (s.data.map sepChar)
  have hf : sepChar ∘ sepChar = sepChar := funext sepChar_idem
  rw [List.map_map, hf]

/-- fromNativeSeparators maps no nonempty string to the empty string. -/
theorem fromNativeSeparators_ne_empty {s : String} (h : s ≠ "") :
    fromNativeSeparators s ≠ "" := by
  intro hc
  apply h
  cases s with
  | mk l =>
    cases l with
    | nil => rfl
    | cons a t =>
        have hd : sepChar a :: t.map sepChar = ([] : List Char) :=
          congrArg String.data hc
        exact absurd hd (by simp)

/-- Behavior of the modelled documented path cleaning on representative
inputs: trailing slashes and redundant separators are removed, "." and ".."
components are resolved as far as possible, the root and leading ".."s of
relative paths are kept. -/
theorem cleanPathQ_examples :
    cleanPathQ "x/" = "x" ∧ cleanPathQ "a//b" = "a/b" ∧
    cleanPathQ "a/./b" = "a/b" ∧ cleanPathQ "a/../b" = "b" ∧
    cleanPathQ "../a" = "../a" ∧ cleanPathQ "/" = "/" ∧
    cleanPathQ "/.." = "/" ∧ cleanPathQ "a/.." = "." ∧
    cleanPathQ "/tmp/x" = "/tmp/x" ∧ cleanPathQ "" = "" := by
  decide

/-- Claim C1, counterexample: not every member function defined in the
vendored qfilesystemmodel.cpp is observationally inert.  Invoked on the
initial state with the new path "/tmp", setRootPath changes the observable
model state (rootPath() changes from "" to "/tmp" and forceSort is set) and
emits the model signal rootPathChanged. -/
theorem c1_counterexample :
    (setRootPath initState "/tmp" false).state ≠ initState ∧
    (setRootPath initState "/tmp" false).signals ≠ [] := by
  decide

/-- Claim C1, amended: in the vendored QFileSystemModel implementation file
the substantive logic is elided, and every member function defined there
other than setRootPath is observationally inert — rootPath() and
rootDirectory() leave the private state unchanged and emit no signal — while
setRootPath touches only the root directory and the force-sort flag and
emits only rootPathChanged. -/
theorem c1_stub_methods :
    (∀ st, (rootPathCall st).state = st ∧ (rootPathCall st).signals = []) ∧
    (∀ st, (rootDirectoryCall st).state = st ∧
      (rootDirectoryCall st).signals = []) ∧
    (∀ st p d, (setRootPath st p d).state.nameFilters = st.nameFilters ∧
      (setRootPath st p d).state.filters = st.filters ∧
      ((setRootPath st p d).signals.all sigIsRootPathChanged) = true) := by
  refine ⟨fun st => ⟨rfl, rfl⟩, fun st => ⟨rfl, rfl⟩, fun st p d => ?_⟩
  by_cases h : st.rootDir.path = fromNativeSeparators p
  · simp [setRootPath, h]
  · by_cases hd : d = true <;>
      simp [setRootPath, h, hd, sigIsRootPathChanged, QDir.setPath]

/-- Claim C2, counterexample: the suite does not await every assertion on the
three asynchronous notifications.  In tst_QFileSystemModel::setRootPath the
QCOMPARE assertions on the rootPathChanged spy (its count and its captured
argument) are made with no QTRY_VERIFY, QSignalSpy::wait or QTest::qWait step
anywhere before them in that function. -/
theorem c2_counterexample :
    suiteAwaitsAsync = false ∧
    testAwaits isAsyncSig fsmodel_setRootPath = false := by
  decide

/-- Claim C2, amended: every assertion the suite makes about directoryLoaded
or fileChanged receipt is preceded by (or itself is) a polling or
timeout-bounded wait step, and the same holds for rootPathChanged in every
test function except tst_QFileSystemModel::setRootPath, which asserts
rootPathChanged receipt synchronously (the signal is emitted synchronously by
setRootPath). -/
theorem c2_awaited_amended :
    (allTestTUs.all (fun tu =>
      tu.tests.all (testAwaits isLoadedOrFileChanged))) = true ∧
    (allTestTUs.all (fun tu => tu.tests.all (fun tf =>
      testAwaits isAsyncSig tf ||
        (tu.file == "tst_qfilesystemmodel.cpp" &&
         tf.name == "setRootPath")))) = true := by
  decide

/-- Claim C3, counterexample (negation of the claim): no test function of
tst_qfileinfogatherer.cpp invokes any operation of the QFileInfoGatherer
class — no constructor or member call in the whole unit names it. -/
theorem c3_counterexample :
    tuCallsClass tstQFileInfoGathererTU "QFileInfoGatherer" = false := by
  decide

/-- Claim C3, amended: the material is a unit-test suite in which each of
tst_qfilesystemmodel.cpp, tst_qfilesystemwatcher.cpp and tst_qfiledialog.cpp
invokes operations of its named class, while tst_qfileinfogatherer.cpp
exercises QFileInfoGatherer only indirectly: its test functions invoke
QFileSystemModel (whose implementation uses the gatherer internally) and
never invoke any operation of QFileInfoGatherer itself. -/
theorem c3_exercises_indirectly :
    tuCallsClass tstQFileSystemModelTU "QFileSystemModel" = true ∧
    tuCallsClass tstQFileSystemWatcherTU "QFileSystemWatcher" = true ∧
    tuCallsClass tstQFileDialogTU "QFileDialog" = true ∧
    tuCallsClass tstQFileInfoGathererTU "QFileSystemModel" = true ∧
    tuCallsClass tstQFileInfoGathererTU "QFileInfoGatherer" = false := by
  decide

/-- Claim C4, counterexample: two consecutive setRootPath calls with the same
path are not always a no-op the second time.  From the initial state, calling
setRootPath("x/") twice emits rootPathChanged twice: the canonicalizing QDir
constructor stores the root path "x" (the trailing slash is removed), so the
second call's equality guard compares "x" with "x/" and fails.  Likewise,
when the first call takes the (elided) show-drives branch the stored root
path is cleared and a second call with the same path "/data" emits again. -/
theorem c4_counterexample :
    (setRootPath (setRootPath initState "x/" false).state
      "x/" false).signals ≠ [] ∧
    (setRootPath (setRootPath initState "/data" true).state
      "/data" true).signals ≠ [] := by
  decide

/-- Claim C4, amended: for every state and every path p whose
separator-normalized form equals the current root directory path,
setRootPath(p) returns the private index of the current root path, leaves
the state unchanged, emits nothing and calls nothing; and of two consecutive
calls with the same path, the second changes nothing and emits nothing
provided the first did not take the (elided) show-drives branch and the
separator-normalized path is nonempty and already in cleaned form (otherwise
the canonicalizing QDir constructor, or the show-drives clearing, stores a
root path different from the normalized argument, so the equality guard
fails again on the second call). -/
theorem c4_same_path_noop :
    (∀ st p d, fromNativeSeparators p = st.rootDir.path →
      setRootPath st p d =
        { state := st, signals := [], elided := [],
          ret := QModelIndex.privIndex st (rootPath st) }) ∧
    (∀ st p d, fromNativeSeparators p ≠ "" →
      cleanPathQ (fromNativeSeparators p) = fromNativeSeparators p →
      (setRootPath (setRootPath st p false).state p d).state =
        (setRootPath st p false).state ∧
      (setRootPath (setRootPath st p false).state p d).signals = []) := by
  constructor
  · intro st p d h
    simp [setRootPath, h]
  · intro st p d h1 h2
    by_cases h : st.rootDir.path = fromNativeSeparators p
    · simp [setRootPath, h]
    · simp [setRootPath, h, QDir.ofPath, h1, fromNativeSeparators_idem, h2]

/-- Claim C4, witness: on the concrete state rooted at "/r", calling
setRootPath with the very path "/r" is the identity step returning the
private index of the root path; and from the initial state two consecutive
setRootPath("/ok") calls — show-drives false, "/ok" nonempty and already in
cleaned form — leave the second call silent and state-preserving. -/
theorem c4_witness :
    (setRootPath sampleRootedState "/r" false =
      { state := sampleRootedState, signals := [], elided := [],
        ret := QModelIndex.privIndex sampleRootedState
          (rootPath sampleRootedState) }) ∧
    ((setRootPath (setRootPath initState "/ok" false).state
        "/ok" false).state = (setRootPath initState "/ok" false).state ∧
      (setRootPath (setRootPath initState "/ok" false).state
        "/ok" false).signals = []) :=
  ⟨c4_same_path_noop.1 sampleRootedState "/r" false (by decide),
   c4_same_path_noop.2 initState "/ok" false (by decide) (by decide)⟩

/-- Claim C5, counterexample: setRootPath does not always set the root
directory to QDir of the normalized path.  From the initial state with the
new path "/data", when the (elided) show-drives condition holds the root
directory path is cleared afterwards, so the resulting root directory
differs from QDir("/data"). -/
theorem c5_counterexample :
    (setRootPath initState "/data" true).state.rootDir ≠
      QDir.ofPath (fromNativeSeparators "/data") := by
  decide

/-- Claim C5, amended: for every state and every path p whose
separator-normalized form differs from the current root directory path,
setRootPath(p) emits rootPathChanged exactly once with the normalized path
as its argument and sets the force-sort flag; the root directory becomes
QDir of the normalized path unless the (elided) show-drives condition holds,
in which case its path is then cleared; afterwards rootPath() returns the
root directory path, and in the non-show-drives case rootPath() equals p
itself only when p is already in cleaned form. -/
theorem c5_new_path :
    ∀ st p d, st.rootDir.path ≠ fromNativeSeparators p →
      (setRootPath st p d).signals =
        [ModelSignal.rootPathChanged (fromNativeSeparators p)] ∧
      (setRootPath st p d).state.forceSort = true ∧
      (setRootPath st p d).state.rootDir =
        (if d then (QDir.ofPath (fromNativeSeparators p)).setPath ""
         else QDir.ofPath (fromNativeSeparators p)) ∧
      rootPath (setRootPath st p d).state =
        (setRootPath st p d).state.rootDir.path ∧
      (d = false → rootPath (setRootPath st p d).state = p →
        isCleanedForm p = true) := by
  intro st p d h
  refine ⟨?_, ?_, ?_, ?_, ?_⟩
  · by_cases hd : d = true <;> simp [setRootPath, h, hd]
  · by_cases hd : d = true <;> simp [setRootPath, h, hd]
  · by_cases hd : d = true <;> simp [setRootPath, h, hd]
  · by_cases hd : d = true <;> simp [setRootPath, h, hd, rootPath]
  · intro hd hroot
    subst hd
    by_cases hp : p = ""
    · subst hp
      simp [setRootPath, h, rootPath, QDir.ofPath] at hroot
      exact absurd hroot (by decide)
    · have hne := fromNativeSeparators_ne_empty hp
      simp [setRootPath, h, rootPath, QDir.ofPath, hne,
        fromNativeSeparators_idem] at hroot
      simp [isCleanedForm, hroot]

/-- Claim C5, witness: from the initial state, setRootPath("/tmp") with the
show-drives condition false emits rootPathChanged("/tmp") once, sets the
force-sort flag, sets the root directory to QDir("/tmp") and rootPath() then
returns its path; "/tmp" is its own cleaned form. -/
theorem c5_witness :
    (setRootPath initState "/tmp" false).signals =
      [ModelSignal.rootPathChanged (fromNativeSeparators "/tmp")] ∧
    (setRootPath initState "/tmp" false).state.forceSort = true ∧
    (setRootPath initState "/tmp" false).state.rootDir =
      (if false then (QDir.ofPath (fromNativeSeparators "/tmp")).setPath ""
       else QDir.ofPath (fromNativeSeparators "/tmp")) ∧
    rootPath (setRootPath initState "/tmp" false).state =
      (setRootPath initState "/tmp" false).state.rootDir.path ∧
    (false = false →
      rootPath (setRootPath initState "/tmp" false).state = "/tmp" →
      isCleanedForm "/tmp" = true) :=
  c5_new_path initState "/tmp" false (by decide)

/-- Claim C6: every test function of the four units validates behavior
exclusively through QVERIFY, QCOMPARE and QTRY_VERIFY; no test function
signals failure through a return value or an exception, and no unit declares
an error type of its own. -/
theorem c6_macros_only : suiteValidatesViaMacros = true := by
  decide

/-- Claim C7: no concurrency contract originates in the vendored material —
no test function creates a thread or performs inter-thread synchronization
(the only waits are the single-threaded QSignalSpy::wait, QTest::qWait and
QTRY_VERIFY polling steps of the transcription), and the vendored
QFileSystemModel excerpt itself calls no thread or synchronization
primitive. -/
theorem c7_no_concurrency :
    suiteThreadFree = true ∧ modelExcerptThreadFree = true := by
  decide

/-- Claim C8: the test units use the toolkit entity types as-is — the only
class each unit declares is its single QObject-derived fixture, none of the
six toolkit types is subclassed, no toolkit member is redefined, and no unit
reaches into toolkit internals. -/
theorem c8_types_used_as_is :
    (allTestTUs.all (fun tu =>
      (tu.classes.length == 1) && tuUsesTypesAsIs tu)) = true := by
  decide

/-- Claim C9: rootDirectory() is a pure observer assembling its result from
exactly three pieces of model state: for every state, the returned QDir has
path rootPath(), name filters nameFilters() and entry filter filter(), and
the call leaves the state unchanged and emits nothing. -/
theorem c9_rootDirectory_observer :
    ∀ st, (rootDirectoryCall st).ret.path = rootPath st ∧
      (rootDirectoryCall st).ret.nameFilters = nameFilters st ∧
      (rootDirectoryCall st).ret.filters = filter st ∧
      (rootDirectoryCall st).state = st ∧
      (rootDirectoryCall st).signals = [] := by
  intro st
  exact ⟨rfl, rfl, rfl, rfl, rfl⟩

end QtVendored
